import Mathlib

/-!
Verification development for the `servidor-stream` repository.

The repository is a Go control-plane service that manages SRT video
channels: a channel registry (`src/internal/channel/channel.go`, package
`channel`), an FFmpeg process supervisor (the `package ffmpeg` half of
`src/internal/channel/channel.go`), a WebSocket control-protocol server
(the `package websocket` half of `src/internal/ffmpeg/manager.go`), and
the application layer wiring them together (`src/internal/app/app.go`).

This file gives a shallow embedding of those components and proves or
refutes the specification claims about them.  Machine integers are
modelled as `Int` (Go `int`), maps as association lists or plain lists,
`uuid.New()` / `time.Now()` / process ids / the filesystem / the
hardware-encoder probe as explicit oracle parameters.  Disk persistence
(`saveToDisk` / `loadFromDisk`) and textual logging (`log.Printf`,
`AddLog`) are I/O-only and are not modelled.
-/

/-! ## Channel registry (package `channel`, src/internal/channel/channel.go lines 1-402) -/

/-- Go `Status` — channel lifecycle state (channel.go lines 14-23). -/
inductive Status where
  | inactive
  | active
  | error
  | starting
  | stopping
deriving Repr, DecidableEq

/-- Go `Stats` — per-channel statistics (channel.go lines 42-49).
`Uptime` (a Go `time.Duration`) is an integer tick count. -/
structure Stats where
  framesProcessed : Int := 0
  bytesSent : Int := 0
  uptime : Int := 0
  lastError : String := ""
  errorCount : Int := 0
deriving Repr, DecidableEq

/-- Go `Channel` — one SRT video channel (channel.go lines 25-40).
Timestamps (`time.Time`) are modelled as `Nat` instants. -/
structure Channel where
  id : String
  label : String
  videoPath : String
  srtStreamName : String
  srtPort : Int
  resolution : String
  frameRate : Int
  status : Status
  currentFile : String
  createdAt : Nat
  updatedAt : Nat
  errorMessage : String
  stats : Stats
deriving Repr, DecidableEq

/-- The channel collection of the registry.  The Go `Manager` holds
`map[string]*Channel` keyed by `Channel.ID`; we model it as a list in
insertion order (fresh UUID keys make every `Add` a fresh insertion, and
`getNextSRTPort` is iteration-order independent, proved below). -/
abbrev Manager := List Channel

/-- Registry errors.  The Go code returns `errors.New` values with the
messages given in `mgrErrMsg`; we keep them distinguishable. -/
inductive MgrError where
  | emptyLabel
  | duplicateName
  | notFound
deriving Repr, DecidableEq

/-- The Spanish error strings used by the Go registry. -/
def mgrErrMsg : MgrError → String
  | .emptyLabel => "la etiqueta no puede estar vacía"
  | .duplicateName => "el nombre de stream ya está en uso"
  | .notFound => "canal no encontrado"

/-- Go `Manager.getNextSRTPort` (channel.go lines 79-94): base port 9000;
one pass over the registry raising `maxPort` to `ch.SRTPort + 1`
whenever `ch.SRTPort >= maxPort`; floored at the base port. -/
def Manager.getNextSRTPort (m : Manager) : Int :=
  let basePort : Int := 9000
  let maxPort := m.foldl (fun maxPort ch =>
    if ch.srtPort ≥ maxPort then ch.srtPort + 1 else maxPort) basePort
  if maxPort < basePort then basePort else maxPort

/-- Result of a registry call that may create or modify a channel:
the Go `(*Channel, error)` return plus the registry contents after the
call (unchanged when an error is returned). -/
instance : DecidableEq (Except MgrError Channel) := fun a b =>
  match a, b with
  | .ok x, .ok y =>
    if h : x = y then .isTrue (by rw [h]) else .isFalse (fun hh => by cases hh; exact h rfl)
  | .error x, .error y =>
    if h : x = y then .isTrue (by rw [h]) else .isFalse (fun hh => by cases hh; exact h rfl)
  | .ok _, .error _ => .isFalse (fun hh => by cases hh)
  | .error _, .ok _ => .isFalse (fun hh => by cases hh)

structure MgrResult where
  res : Except MgrError Channel
  state : Manager
deriving Repr, DecidableEq

/-- The stream name `Add` actually registers: a missing name defaults to
`"STREAM_" + label` (channel.go lines 107-110). -/
def effectiveStreamName (label srtStreamName : String) : String :=
  if srtStreamName = "" then "STREAM_" ++ label else srtStreamName

/-- The channel record `Add` builds (channel.go lines 122-135): fresh
id, defaulted resolution/frame-rate, `Inactive`, empty current file,
and the port from `getNextSRTPort`. -/
def newChannel (m : Manager) (newID : String) (now : Nat)
    (label videoPath srtStreamName : String) : Channel :=
  { id := newID
    label := label
    videoPath := videoPath
    srtStreamName := effectiveStreamName label srtStreamName
    srtPort := Manager.getNextSRTPort m
    resolution := "1920x1080"
    frameRate := 30
    status := .inactive
    currentFile := ""
    createdAt := now
    updatedAt := now
    errorMessage := ""
    stats := {} }

/-- Go `Manager.Add` (channel.go lines 96-143).  `newID` stands for
`uuid.New().String()` and `now` for `time.Now()`. -/
def Manager.add (m : Manager) (newID : String) (now : Nat)
    (label videoPath srtStreamName : String) : MgrResult :=
  if label = "" then ⟨.error .emptyLabel, m⟩
  else if m.any (fun ch => ch.srtStreamName = effectiveStreamName label srtStreamName) then
    ⟨.error .duplicateName, m⟩
  else
    ⟨.ok (newChannel m newID now label videoPath srtStreamName),
      m ++ [newChannel m newID now label videoPath srtStreamName]⟩

/-- Go `Manager.Remove` (channel.go lines 145-160). -/
def Manager.remove (m : Manager) (channelID : String) : Except MgrError Manager :=
  if m.any (fun ch => ch.id = channelID) then
    .ok (m.filter (fun ch => !(ch.id = channelID)))
  else .error .notFound

/-- Go `Manager.Get` (channel.go lines 162-173). -/
def Manager.get (m : Manager) (channelID : String) : Except MgrError Channel :=
  match m.find? (fun ch => ch.id = channelID) with
  | some ch => .ok ch
  | none => .error .notFound

/-- Go `Manager.GetBySRTName` (channel.go lines 175-187). -/
def Manager.getBySRTName (m : Manager) (srtName : String) : Except MgrError Channel :=
  match m.find? (fun ch => ch.srtStreamName = srtName) with
  | some ch => .ok ch
  | none => .error .notFound

/-- The field-overwrite step of `Manager.Update` (channel.go lines
236-246): only the fields whose argument is non-empty are replaced, and
`UpdatedAt` is stamped. -/
def updateFields (channel : Channel) (now : Nat) (label videoPath srtStreamName : String) :
    Channel :=
  { channel with
    label := if label = "" then channel.label else label
    videoPath := if videoPath = "" then channel.videoPath else videoPath
    srtStreamName := if srtStreamName = "" then channel.srtStreamName else srtStreamName
    updatedAt := now }

/-- Go `Manager.Update` (channel.go lines 217-252): looks the channel up by
id, rejects a stream name owned by a *different* channel, then applies
the in-place overwrite `updateFields`. -/
def Manager.update (m : Manager) (now : Nat)
    (channelID label videoPath srtStreamName : String) : MgrResult :=
  match m.find? (fun ch => ch.id = channelID) with
  | none => ⟨.error .notFound, m⟩
  | some channel =>
    if srtStreamName ≠ channel.srtStreamName ∧
        m.any (fun ch => ch.id ≠ channelID ∧ ch.srtStreamName = srtStreamName) then
      ⟨.error .duplicateName, m⟩
    else
      ⟨.ok (updateFields channel now label videoPath srtStreamName),
        m.map (fun ch =>
          if ch.id = channelID then updateFields channel now label videoPath srtStreamName
          else ch)⟩

/-- Go `Manager.SetStatus` (channel.go lines 254-268), with the not-found
error discarded the way every caller in app.go discards it: a missing
id leaves the registry unchanged. -/
def Manager.setStatusD (m : Manager) (now : Nat) (channelID : String) (status : Status) : Manager :=
  m.map (fun ch => if ch.id = channelID then { ch with status := status, updatedAt := now } else ch)

/-- Go `Manager.SetCurrentFile` (channel.go lines 270-284), not-found error
discarded as in app.go. -/
def Manager.setCurrentFileD (m : Manager) (now : Nat) (channelID filePath : String) : Manager :=
  m.map (fun ch => if ch.id = channelID then { ch with currentFile := filePath, updatedAt := now } else ch)

/-- Go `Manager.SetError` (channel.go lines 306-323): status `Error`,
message retained, error counter incremented. -/
def Manager.setErrorD (m : Manager) (now : Nat) (channelID errorMessage : String) : Manager :=
  m.map (fun ch =>
    if ch.id = channelID then
      { ch with
        status := .error
        errorMessage := errorMessage
        stats := { ch.stats with lastError := errorMessage, errorCount := ch.stats.errorCount + 1 }
        updatedAt := now }
    else ch)

/-! ### Port allocator facts -/

/-- The loop body of `getNextSRTPort`, on the port values. -/
def portStep (acc p : Int) : Int := if p ≥ acc then p + 1 else acc

theorem getNextSRTPort_eq_fold (m : Manager) :
    Manager.getNextSRTPort m =
      (if (m.map (fun ch => ch.srtPort)).foldl portStep 9000 < 9000 then (9000 : Int)
       else (m.map (fun ch => ch.srtPort)).foldl portStep 9000) := by
  unfold Manager.getNextSRTPort portStep
  rw [List.foldl_map]

/-- The fold never drops below its seed, strictly dominates every list
element, and is either the seed or one more than some element. -/
theorem portStep_fold_spec (l : List Int) (b : Int) :
    b ≤ l.foldl portStep b ∧ (∀ p ∈ l, p < l.foldl portStep b) ∧
      (l.foldl portStep b = b ∨ ∃ p ∈ l, l.foldl portStep b = p + 1) := by
  induction l generalizing b with
  | nil => simp
  | cons p l ih =>
    obtain ⟨ih1, ih2, ih3⟩ := ih (portStep b p)
    have hb : b ≤ portStep b p := by unfold portStep; split <;> omega
    have hp : p < portStep b p := by unfold portStep; split <;> omega
    refine ⟨by simpa using le_trans hb ih1, ?_, ?_⟩
    · intro q hq
      rcases List.mem_cons.mp hq with h | h
      · subst h; exact lt_of_lt_of_le hp (by simpa using ih1)
      · simpa using ih2 q h
    · rcases ih3 with h | ⟨q, hq, h⟩
      · by_cases hge : p ≥ b
        · right
          refine ⟨p, List.mem_cons_self _ _, ?_⟩
          simp only [List.foldl_cons, h]
          simp [portStep, hge]
        · left
          simp only [List.foldl_cons, h]
          simp [portStep, hge]
      · right
        refine ⟨q, List.mem_cons_of_mem _ hq, ?_⟩
        simpa using h

theorem getNextSRTPort_spec (m : Manager) :
    9000 ≤ Manager.getNextSRTPort m ∧ (∀ ch ∈ m, ch.srtPort < Manager.getNextSRTPort m) ∧
      (Manager.getNextSRTPort m = 9000 ∨
        ∃ ch ∈ m, Manager.getNextSRTPort m = ch.srtPort + 1) := by
  obtain ⟨h1, h2, h3⟩ := portStep_fold_spec (m.map (fun ch => ch.srtPort)) 9000
  have hif : Manager.getNextSRTPort m = (m.map (fun ch => ch.srtPort)).foldl portStep 9000 := by
    rw [getNextSRTPort_eq_fold, if_neg (by omega)]
  refine ⟨by omega, ?_, ?_⟩
  · intro ch hch
    have := h2 ch.srtPort (List.mem_map_of_mem _ hch)
    omega
  · rcases h3 with h | ⟨p, hp, h⟩
    · left; omega
    · right
      obtain ⟨ch, hch, rfl⟩ := List.mem_map.mp hp
      exact ⟨ch, hch, by omega⟩

/-! ## FFmpeg process supervisor (the `package ffmpeg` half of
src/internal/channel/channel.go, lines 404-1224) -/

/-- Go `EventType` (channel.go lines 421-430). -/
inductive EventType where
  | started
  | stopped
  | error
  | progress
  | warning
deriving Repr, DecidableEq

/-- Go `Event` (channel.go lines 432-438).  The auxiliary `Data` map of the
Go struct carries only diagnostic payloads (pid, urls, the fallback
reason); no consumer branches on it, so it is folded into `message`. -/
structure Event where
  type : EventType
  channelID : String
  message : String
deriving Repr, DecidableEq

/-- Go `StreamConfig` (channel.go lines 440-469). -/
structure StreamConfig where
  channelID : String := ""
  inputPath : String := ""
  srtStreamName : String := ""
  srtPort : Int := 0
  srtHost : String := ""
  videoBitrate : String := ""
  audioBitrate : String := ""
  frameRate : Int := 0
  width : Int := 0
  height : Int := 0
  loop : Bool := false
  videoEncoder : String := ""
  encoderPreset : String := ""
  encoderProfileStr : String := ""
  encoderTune : String := ""
  gopSize : Int := 0
  bFrames : Int := 0
  bitrateMode : String := ""
  maxBitrate : String := ""
  bufferSize : String := ""
  srtLatency : Int := 0
  srtRecvBuffer : Int := 0
  srtSendBuffer : Int := 0
  srtOverheadBW : Int := 0
deriving Repr, DecidableEq

/-- Go `ffmpegProcess` (channel.go lines 503-513).  `hasProcess` models
`cmd != nil && cmd.Process != nil`; `stopped` is the intentional-stop
flag set by `Stop` under the manager mutex.  The OS handles (`cmd`,
`cancel`, `stderr`) and timestamps carry no claim-relevant state. -/
structure FFProcess where
  config : StreamConfig
  hasProcess : Bool
  stopped : Bool
deriving Repr, DecidableEq

/-- The supervisor session table `processes map[string]*ffmpegProcess`,
as an association list keyed by channel id. -/
abbrev FFState := List (String × FFProcess)

/-- Map insert `m.processes[id] = proc`. -/
def ffInsert (ff : FFState) (channelID : String) (proc : FFProcess) : FFState :=
  ff.filter (fun p => !(p.1 = channelID)) ++ [(channelID, proc)]

/-- Map delete `delete(m.processes, id)`. -/
def ffDelete (ff : FFState) (channelID : String) : FFState :=
  ff.filter (fun p => !(p.1 = channelID))

/-- The warning message built at channel.go line 567 when the hardware
probe fails and `libx264` is substituted. -/
def fallbackWarnMsg (originalEncoder : String) : String :=
  "Encoder " ++ originalEncoder ++
    " no disponible (driver incompatible). Usando libx264 como fallback."

/-- The `EventStarted` message built at channel.go line 643. -/
def startedMsg (pid : Int) (cfg : StreamConfig) : String :=
  let srtPort := if cfg.srtPort = 0 then 9000 else cfg.srtPort
  let encoderUsed := if cfg.videoEncoder = "" then "libx264" else cfg.videoEncoder
  "FFmpeg iniciado: PID=" ++ toString pid ++ ", Puerto=" ++ toString srtPort ++
    ", Encoder=" ++ encoderUsed ++ ", Resolución=" ++ toString cfg.width ++ "x" ++
    toString cfg.height ++ "@" ++ toString cfg.frameRate ++ "fps"

/-- Whether the requested encoder is one of the three hardware encoders
checked at channel.go line 557. -/
def isHardwareEncoder (encoder : String) : Bool :=
  encoder = "h264_nvenc" || encoder = "h264_qsv" || encoder = "h264_amf"

/-- Result of `startInternal`: the session table after the call, the
events handed to the event handler (in emission order), the stream
configurations actually launched as child processes, and the Go error
return. -/
structure FFStartOut where
  ff : FFState
  events : List Event
  launched : List StreamConfig
  err : Option String
deriving Repr, DecidableEq

/-- Go `Manager.startInternal` (channel.go lines 538-658).  Oracles:
`fs` is the set of paths for which `os.Stat` succeeds, `probe` is
`testHardwareEncoder` (channel.go lines 660-690, an external bounded
dry-run of the candidate encoder), `pid` the child process id.  The
`StderrPipe`/`cmd.Start` syscalls are modelled on their success path. -/
def startInternal (fs : List String) (probe : String → String → Bool) (pid : Int)
    (ff : FFState) (config : StreamConfig) (enableFallback : Bool) : FFStartOut :=
  -- session check (lines 543-548): error only when a live process exists
  if (List.lookup config.channelID ff).any (fun proc => proc.hasProcess) then
    ⟨ff, [], [], some ("ya existe un proceso activo para el canal " ++ config.channelID)⟩
  -- input-file check (lines 550-553)
  else if !(fs.contains config.inputPath) then
    ⟨ff, [], [], some ("archivo de entrada no encontrado: " ++ config.inputPath)⟩
  else
    -- hardware-encoder probe with libx264 fallback (lines 555-576)
    let originalEncoder := config.videoEncoder
    let fellBack :=
      isHardwareEncoder originalEncoder && enableFallback &&
        !(probe config.inputPath originalEncoder)
    let config2 := if fellBack then { config with videoEncoder := "libx264" } else config
    let warnEvents :=
      if fellBack then [⟨.warning, config.channelID, fallbackWarnMsg originalEncoder⟩] else []
    -- launch and registration (lines 578-620)
    let proc : FFProcess := ⟨config2, true, false⟩
    let ff2 := ffInsert ff config.channelID proc
    -- EventStarted (lines 622-655)
    ⟨ff2, warnEvents ++ [⟨.started, config.channelID, startedMsg pid config2⟩], [config2], none⟩

/-- Go `Manager.Start` (channel.go lines 528-531). -/
def ffmpegStart (fs : List String) (probe : String → String → Bool) (pid : Int)
    (ff : FFState) (config : StreamConfig) : FFStartOut :=
  startInternal fs probe pid ff config false

/-- Go `Manager.StartWithFallback` (channel.go lines 533-536). -/
def startWithFallback (fs : List String) (probe : String → String → Bool) (pid : Int)
    (ff : FFState) (config : StreamConfig) : FFStartOut :=
  startInternal fs probe pid ff config true

/-- The first mutex-guarded section of `Manager.Stop` (channel.go lines
693-700): mark the session as intentionally stopped.  Returns the new
table and whether the session existed. -/
def stopMark (ff : FFState) (channelID : String) : FFState × Bool :=
  match List.lookup channelID ff with
  | none => (ff, false)
  | some proc =>
    (ff.map (fun p => if p.1 = channelID then (p.1, { proc with stopped := true }) else p), true)

/-- Go `Manager.Stop` in full (channel.go lines 692-734): mark stopped,
cancel/kill the process (OS effects), wait out the two grace sleeps,
delete the session, emit `EventStopped`.  A missing session returns
`nil` with no effects (idempotent stop).  The Go return value is always
`nil`, so no error component is needed. -/
def ffmpegStop (ff : FFState) (channelID : String) : FFState × List Event :=
  let (ff1, exists0) := stopMark ff channelID
  if exists0 then
    (ffDelete ff1 channelID, [⟨.stopped, channelID, "Stream detenido"⟩])
  else (ff1, [])

/-- The mutex-guarded section of `Manager.monitorProcess` run once
`cmd.Wait()` returns (channel.go lines 1058-1087): unless the
intentional-stop flag is set, classify the exit (`exitErr` is
the error from `cmd.Wait()`, `none` on clean exit) into exactly one terminal
event and delete the session. -/
def monitorProcessStep (ff : FFState) (channelID : String) (exitErr : Option String) :
    FFState × List Event :=
  match List.lookup channelID ff with
  | none => (ff, [])
  | some proc =>
    if proc.stopped then (ff, [])
    else
      match exitErr with
      | some msg => (ffDelete ff channelID, [⟨.error, channelID, msg⟩])
      | none => (ffDelete ff channelID, [⟨.stopped, channelID, "Proceso terminado normalmente"⟩])

/-- Go `Manager.IsRunning` (channel.go lines 750-766): a tracked session
whose process has not exited.  The `ProcessState` test is an OS oracle;
for the claims only the presence of the session matters, so a tracked
session with a process counts as running. -/
def ffIsRunning (ff : FFState) (channelID : String) : Bool :=
  (List.lookup channelID ff).any (fun proc => proc.hasProcess)

/-! ## WebSocket control-protocol server (the `package websocket` half of
src/internal/ffmpeg/manager.go, lines 684-1078) -/

/-- Go `Message` — inbound JSON request envelope (manager.go lines 699-706).
JSON decoding itself is byte-level I/O; requests enter the model already
parsed.  The free-form `parameters` object is unused by every handler. -/
structure Message where
  action : String := ""
  clientID : String := ""
  channelID : String := ""
  filePath : String := ""
deriving Repr, DecidableEq

/-- Go `Response` — outbound JSON envelope (manager.go lines 708-715).
The `data` payload is diagnostic (ids, urls, listings) and no claim
inspects it, so it is not carried. -/
structure WSResponse where
  success : Bool
  action : String
  message : String := ""
  error : String := ""
deriving Repr, DecidableEq

/-- Go `ErrorResponse` (manager.go lines 1058-1067). -/
def errorResponse (action errorMessage : String) : WSResponse :=
  { success := false, action := action, error := errorMessage }

/-- Go `SuccessResponse` (manager.go lines 1069-1078). -/
def successResponse (action : String) : WSResponse :=
  { success := true, action := action }

/-- A connected WebSocket client: its id and outbound `send` queue
(manager.go `Client`, lines 727-738). -/
structure WSClient where
  id : String
  send : List WSResponse
deriving Repr, DecidableEq

/-- The outbound channel capacity `make(chan []byte, 256)`
(manager.go line 832). -/
def sendBufferCap : Nat := 256

/-- A non-blocking send on a client queue: enqueue unless full
(the `select`/`default` in `Broadcast`). -/
def enqueue (c : WSClient) (msg : WSResponse) : WSClient :=
  if c.send.length < sendBufferCap then { c with send := c.send ++ [msg] } else c

/-- Go `Server.Broadcast` (src/internal/ffmpeg/manager.go lines 950-962):
deliver one message to every connected client, dropping it for clients
whose queue is full. -/
def serverBroadcast (clients : List WSClient) (message : WSResponse) : List WSClient :=
  clients.map (fun c => enqueue c message)

/-! ## Application layer (src/internal/app/app.go) -/

/-- The configuration fields of `config.Config` the app logic reads
(src/internal/config/config.go lines 1088-1115, defaults lines
1170-1197).  `srtPref` is the Go `SRTPrefix` field. -/
structure AppConfig where
  autoRestart : Bool := true
  srtPref : String := "SRT_SERVER_"
  defaultVideoBitrate : String := "10M"
  defaultAudioBitrate : String := "192k"
  defaultFrameRate : Int := 30
deriving Repr, DecidableEq

/-- The mutable state of the app: channel registry, supervisor session table,
configuration. -/
structure AppState where
  registry : Manager
  ff : FFState
  conf : AppConfig
deriving Repr, DecidableEq

/-- Environment oracles for one request: the filesystem (`os.Stat`
succeeds exactly on members of `fs`), the hardware-encoder probe, the
wall clock, the next fresh UUID, the child pid, the server IP, and the
`GetVideoFiles` directory walk keyed by the video path of a channel. -/
structure Env where
  fs : List String
  probe : String → String → Bool
  now : Nat
  newID : String
  pid : Int
  serverIP : String
  videoFiles : String → Except String (List String)

/-- A `runtime.EventsEmit` call to the desktop GUI frontend (Wails event
bus): event name plus the channel it concerns.  These go to the GUI,
not to WebSocket clients. -/
structure FEEvent where
  name : String
  channelID : String
deriving Repr, DecidableEq

/-- The transport-disconnect classifier inside `onFFmpegEvent`
(app.go lines 866-869): Go `strings.Contains` on three patterns. -/
def goContains (s sub : String) : Bool :=
  decide (sub.data <:+: s.data)

def isSRTDisconnect (message : String) : Bool :=
  goContains message "I/O error" ||
    goContains message "exit status 0xfffffffb" ||
    goContains message "muxing a packet"

/-- Output of consuming one supervisor event: updated registry, GUI
events emitted, and whether `go a.attemptRestart(...)` was scheduled. -/
structure FFEventOut where
  registry : Manager
  fe : List FEEvent
  restart : Bool
deriving Repr, DecidableEq

/-- Go `App.onFFmpegEvent` (app.go lines 843-896): the supervisor event
handler.  `Started` and `Progress` change nothing; `Warning` only
notifies the GUI; `Stopped` forces `Inactive`; `Error` is classified —
a transport disconnect goes to `Inactive` with no restart, anything
else goes to `Error` and schedules a restart iff `AutoRestart`. -/
def appOnFFmpegEvent (autoRestart : Bool) (reg : Manager) (now : Nat) (ev : Event) : FFEventOut :=
  match ev.type with
  | .started => ⟨reg, [], false⟩
  | .warning => ⟨reg, [⟨"ffmpeg:warning", ev.channelID⟩], false⟩
  | .stopped =>
    ⟨Manager.setStatusD reg now ev.channelID .inactive, [⟨"channel:status", ev.channelID⟩], false⟩
  | .error =>
    if isSRTDisconnect ev.message then
      ⟨Manager.setStatusD reg now ev.channelID .inactive, [⟨"channel:status", ev.channelID⟩], false⟩
    else
      ⟨Manager.setStatusD reg now ev.channelID .error, [⟨"channel:status", ev.channelID⟩], autoRestart⟩
  | .progress => ⟨reg, [], false⟩

/-- Consume a list of supervisor events in emission order (the Go event
handler is invoked synchronously from `emitEvent`). -/
def applyFFEvents (autoRestart : Bool) (reg : Manager) (now : Nat) (evs : List Event) : FFEventOut :=
  evs.foldl (fun acc ev =>
    let r := appOnFFmpegEvent autoRestart acc.registry now ev
    ⟨r.registry, acc.fe ++ r.fe, acc.restart || r.restart⟩) ⟨reg, [], false⟩

/-- Result of one app-level operation: new state, GUI events, restart
scheduling, and the Go error return. -/
structure OpResult where
  a : AppState
  fe : List FEEvent
  restart : Bool
  err : Option String
deriving Repr, DecidableEq

/-- Go `App.StopChannel` (app.go lines 405-426): registry lookup (error if
unknown), supervisor `Stop` (always returns nil; its `EventStopped`, if
any, is consumed by `onFFmpegEvent` synchronously), then status
`Inactive` and a GUI notification. -/
def appStopChannel (env : Env) (a : AppState) (channelID : String) : OpResult :=
  match Manager.get a.registry channelID with
  | .error e => ⟨a, [], false, some (mgrErrMsg e)⟩
  | .ok _ =>
    let r := ffmpegStop a.ff channelID
    let out := applyFFEvents a.conf.autoRestart a.registry env.now r.2
    let reg2 := Manager.setStatusD out.registry env.now channelID .inactive
    ⟨⟨reg2, r.1, a.conf⟩, out.fe ++ [⟨"channel:status", channelID⟩], out.restart, none⟩

/-- Go `fmt.Sscanf(ch.Resolution, "%dx%d", &width, &height)` with the
1920x1080 fallback (app.go lines 547-551). -/
def parseResolution (s : String) : Int × Int :=
  match (s.splitOn "x").map String.toInt? with
  | [some w, some h] => (w, h)
  | _ => (1920, 1080)

/-- Go `App.PlayVideoOnChannel` (app.go lines 532-594): stop the current
process if the channel is active, record the new current file, build a
`StreamConfig` (no encoder overrides — software path) and
`StartWithFallback` it; on failure mark the channel `Error`, on success
mark it `Active` and notify the GUI. -/
def appPlayVideoOnChannel (env : Env) (a : AppState) (channelID videoPath : String) : OpResult :=
  match Manager.get a.registry channelID with
  | .error e => ⟨a, [], false, some (mgrErrMsg e)⟩
  | .ok ch =>
    let stopR :=
      if ch.status = Status.active then ffmpegStop a.ff channelID else (a.ff, [])
    let out1 := applyFFEvents a.conf.autoRestart a.registry env.now stopR.2
    let reg2 := Manager.setCurrentFileD out1.registry env.now channelID videoPath
    let wh := parseResolution ch.resolution
    let fr := if ch.frameRate = 0 then a.conf.defaultFrameRate else ch.frameRate
    let cfg : StreamConfig :=
      { channelID := ch.id
        inputPath := videoPath
        srtStreamName := ch.srtStreamName
        srtPort := ch.srtPort
        srtHost := ""  -- app.go line 565 reads ch.SRTHost; the src Channel struct has no such field
        videoBitrate := a.conf.defaultVideoBitrate
        audioBitrate := a.conf.defaultAudioBitrate
        frameRate := fr
        width := wh.1
        height := wh.2
        loop := true }
    let sr := startWithFallback env.fs env.probe env.pid stopR.1 cfg
    let out2 := applyFFEvents a.conf.autoRestart reg2 env.now sr.events
    match sr.err with
    | some e =>
      let reg3 := Manager.setStatusD out2.registry env.now channelID .error
      ⟨⟨reg3, sr.ff, a.conf⟩, out1.fe ++ out2.fe, out1.restart || out2.restart, some e⟩
    | none =>
      let reg3 := Manager.setStatusD out2.registry env.now channelID .active
      ⟨⟨reg3, sr.ff, a.conf⟩, out1.fe ++ out2.fe ++ [⟨"channel:status", channelID⟩],
        out1.restart || out2.restart, none⟩

/-- Result of one WebSocket request handler: the response written back
to the requesting connection, the state and GUI effects, the messages
handed to `Server.Broadcast` (none — no handler in app.go ever calls
it), and restart scheduling. -/
structure HandlerResult where
  response : WSResponse
  a : AppState
  fe : List FEEvent
  broadcasts : List WSResponse
  restart : Bool

/-- Go `App.handleStopRequest` (app.go lines 799-808). -/
def handleStopRequest (env : Env) (a : AppState) (clientID : String) (msg : Message) :
    HandlerResult :=
  let r := appStopChannel env a msg.channelID
  match r.err with
  | some e => ⟨errorResponse "stop_error" e, r.a, r.fe, [], r.restart⟩
  | none => ⟨successResponse "play_stopped", r.a, r.fe, [], r.restart⟩

/-- Modelled from the spec: `Manager.GetByLabel` is called at app.go
line 699 but is absent from the channel package under src.  The spec
(§6 `play_video`: "channel optional, auto-created/reused") and the call
site ("Buscar por label si no se encontró por ID") fix its meaning:
return the channel whose `Label` equals the argument, nil when none. -/
def Manager.getByLabel (m : Manager) (label : String) : Option Channel :=
  m.find? (fun ch => ch.label = label)

/-- The channel-resolution phase of `handlePlayVideoRequest` (app.go
lines 688-741): an explicit `channelId` is resolved by id then by
label; otherwise the per-client channel `Client_<id>` is reused or
created (stream name `SRTPrefix + clientID[:8]`). -/
def resolvePlayChannel (env : Env) (a : AppState) (clientID : String) (msg : Message) :
    Except WSResponse (AppState × List FEEvent × Channel) :=
  if msg.channelID ≠ "" then
    match Manager.get a.registry msg.channelID with
    | .ok ch => .ok (a, [], ch)
    | .error _ =>
      match Manager.getByLabel a.registry msg.channelID with
      | some ch => .ok (a, [], ch)
      | none => .error (errorResponse "channel_not_found" ("Canal no encontrado: " ++ msg.channelID))
  else
    match a.registry.find? (fun ch => ch.label = "Client_" ++ clientID) with
    | some ch => .ok (a, [], ch)
    | none =>
      let r := Manager.add a.registry env.newID env.now ("Client_" ++ clientID)
        msg.filePath (a.conf.srtPref ++ clientID.take 8)
      match r.res with
      | .error e => .error (errorResponse "channel_create_error" (mgrErrMsg e))
      | .ok ch => .ok (⟨r.state, a.ff, a.conf⟩, [⟨"channel:added", ch.id⟩], ch)

/-- Go `App.handlePlayVideoRequest` (app.go lines 669-767): validate the
file path, resolve or create the channel, play the file, answer
`play_started` on success. -/
def handlePlayVideoRequest (env : Env) (a : AppState) (clientID : String) (msg : Message) :
    HandlerResult :=
  if msg.filePath = "" then
    ⟨errorResponse "missing_file_path" "Se requiere la ruta del video (filePath)", a, [], [], false⟩
  else if !(env.fs.contains msg.filePath) then
    ⟨errorResponse "file_not_found" ("Archivo no encontrado: " ++ msg.filePath), a, [], [], false⟩
  else
    match resolvePlayChannel env a clientID msg with
    | .error resp => ⟨resp, a, [], [], false⟩
    | .ok (a1, fe1, ch) =>
      let r := appPlayVideoOnChannel env a1 ch.id msg.filePath
      match r.err with
      | some e => ⟨errorResponse "play_error" e, r.a, fe1 ++ r.fe, [], r.restart⟩
      | none => ⟨successResponse "play_started", r.a, fe1 ++ r.fe, [], r.restart⟩

/-- Go `App.handlePlayRequest` (app.go lines 769-797). -/
def handlePlayRequest (env : Env) (a : AppState) (clientID : String) (msg : Message) :
    HandlerResult :=
  match Manager.get a.registry msg.channelID with
  | .error _ => ⟨errorResponse "channel_not_found" "Canal no encontrado", a, [], [], false⟩
  | .ok ch =>
    let videoPath := if msg.filePath = "" then ch.videoPath else msg.filePath
    let r := appPlayVideoOnChannel env a msg.channelID videoPath
    match r.err with
    | some e => ⟨errorResponse "play_error" e, r.a, r.fe, [], r.restart⟩
    | none => ⟨successResponse "play_started", r.a, r.fe, [], r.restart⟩

/-- Go `App.handleStatusRequest` (app.go lines 810-822). -/
def handleStatusRequest (env : Env) (a : AppState) (clientID : String) (msg : Message) :
    HandlerResult :=
  if msg.channelID ≠ "" then
    match Manager.get a.registry msg.channelID with
    | .error _ => ⟨errorResponse "channel_not_found" "Canal no encontrado", a, [], [], false⟩
    | .ok _ => ⟨successResponse "channel_status", a, [], [], false⟩
  else ⟨successResponse "all_channels_status", a, [], [], false⟩

/-- Go `App.handleListChannelsRequest` (app.go lines 824-827). -/
def handleListChannelsRequest (env : Env) (a : AppState) (clientID : String) : HandlerResult :=
  ⟨successResponse "channels_list", a, [], [], false⟩

/-- Go `App.handleListFilesRequest` (app.go lines 829-841); the
`GetVideoFiles(filepath.Dir(ch.VideoPath))` walk is the `env.videoFiles`
oracle. -/
def handleListFilesRequest (env : Env) (a : AppState) (clientID : String) (msg : Message) :
    HandlerResult :=
  match Manager.get a.registry msg.channelID with
  | .error _ => ⟨errorResponse "channel_not_found" "Canal no encontrado", a, [], [], false⟩
  | .ok ch =>
    match env.videoFiles ch.videoPath with
    | .error e => ⟨errorResponse "list_error" e, a, [], [], false⟩
    | .ok _ => ⟨successResponse "files_list", a, [], [], false⟩

/-- Go `App.handleWebSocketMessage` (app.go lines 628-667): dispatch by the
`action` field (JSON decoding and the Socket.IO prefix strip are
byte-level and happen before the model). -/
def handleWebSocketMessage (env : Env) (a : AppState) (clientID : String) (msg : Message) :
    HandlerResult :=
  match msg.action with
  | "play_video" => handlePlayVideoRequest env a clientID msg
  | "play" => handlePlayRequest env a clientID msg
  | "stop" => handleStopRequest env a clientID msg
  | "status" => handleStatusRequest env a clientID msg
  | "list_channels" => handleListChannelsRequest env a clientID
  | "list_files" => handleListFilesRequest env a clientID msg
  | _ => ⟨errorResponse "unknown_action" "Acción desconocida", a, [], [], false⟩

/-- One request cycle at the connection layer: the handler response is
written to the queue of the requesting client (`readPump`, manager.go lines
1009-1012, a blocking channel send), and every message the handler
hands to `Server.Broadcast` is fanned out to all clients. -/
def processRequest (env : Env) (clients : List WSClient) (a : AppState)
    (clientID : String) (msg : Message) : HandlerResult × List WSClient :=
  let r := handleWebSocketMessage env a clientID msg
  let clients1 := clients.map (fun c =>
    if c.id = clientID then { c with send := c.send ++ [r.response] } else c)
  (r, r.broadcasts.foldl serverBroadcast clients1)

/-! ## Claims -/

/-- C10: For every registry Add call whose label argument is the empty
string, Add returns an error and the registry is unchanged, regardless
of the videoPath and streamName arguments. -/
theorem c10_add_empty_label_rejected (m : Manager) (newID : String) (now : Nat)
    (videoPath srtStreamName : String) :
    Manager.add m newID now "" videoPath srtStreamName = ⟨.error .emptyLabel, m⟩ := by
  unfold Manager.add
  simp

/-- C9: For every successful registry Update(id, label, videoPath,
streamName) call, all channel fields other than Label, VideoPath,
SRTStreamName and UpdatedAt are unchanged — in particular ID, SRTPort,
Status, CurrentFile, Stats and CreatedAt are preserved — and any of
label, videoPath, streamName passed as the empty string leaves the
corresponding field at its previous value. -/
theorem c9_update_frame_effect (m : Manager) (now : Nat)
    (channelID label videoPath srtStreamName : String) (ch : Channel)
    (h : (Manager.update m now channelID label videoPath srtStreamName).res = .ok ch) :
    ∃ old, m.find? (fun c => c.id = channelID) = some old ∧
      ch.id = old.id ∧ ch.srtPort = old.srtPort ∧ ch.status = old.status ∧
      ch.currentFile = old.currentFile ∧ ch.stats = old.stats ∧
      ch.createdAt = old.createdAt ∧ ch.resolution = old.resolution ∧
      ch.frameRate = old.frameRate ∧ ch.errorMessage = old.errorMessage ∧
      ch.label = (if label = "" then old.label else label) ∧
      ch.videoPath = (if videoPath = "" then old.videoPath else videoPath) ∧
      ch.srtStreamName = (if srtStreamName = "" then old.srtStreamName else srtStreamName) ∧
      ch.updatedAt = now ∧
      (Manager.update m now channelID label videoPath srtStreamName).state =
        m.map (fun c => if c.id = channelID then ch else c) := by
  cases hf : m.find? (fun c => c.id = channelID) with
  | none =>
    simp only [Manager.update, hf] at h
    exact absurd h (by simp)
  | some old =>
    simp only [Manager.update, hf] at h ⊢
    refine ⟨old, rfl, ?_⟩
    split at h
    · exact absurd h (by simp)
    · next hcond =>
      rw [if_neg hcond]
      have h2 : Except.ok (updateFields old now label videoPath srtStreamName) =
          Except.ok ch := h
      have hch := Except.ok.inj h2
      subst hch
      exact ⟨rfl, rfl, rfl, rfl, rfl, rfl, rfl, rfl, rfl, rfl, rfl, rfl, rfl, rfl⟩

/-- Concrete registered channel used by witnesses. -/
def chBase : Channel :=
  { id := "id0"
    label := "Canal 1"
    videoPath := "C:/videos/base.mp4"
    srtStreamName := "dup"
    srtPort := 9000
    resolution := "1920x1080"
    frameRate := 30
    status := .inactive
    currentFile := ""
    createdAt := 0
    updatedAt := 0
    errorMessage := ""
    stats := {} }

theorem c9_update_frame_effect_witness :
    (Manager.update [chBase] 7 "id0" "Nuevo" "" "").res =
      .ok { chBase with label := "Nuevo", updatedAt := 7 } ∧
    ∃ old, [chBase].find? (fun c => c.id = "id0") = some old ∧
      ({ chBase with label := "Nuevo", updatedAt := 7 } : Channel).id = old.id ∧
      ({ chBase with label := "Nuevo", updatedAt := 7 } : Channel).srtPort = old.srtPort ∧
      ({ chBase with label := "Nuevo", updatedAt := 7 } : Channel).status = old.status ∧
      ({ chBase with label := "Nuevo", updatedAt := 7 } : Channel).currentFile = old.currentFile ∧
      ({ chBase with label := "Nuevo", updatedAt := 7 } : Channel).stats = old.stats ∧
      ({ chBase with label := "Nuevo", updatedAt := 7 } : Channel).createdAt = old.createdAt ∧
      ({ chBase with label := "Nuevo", updatedAt := 7 } : Channel).resolution = old.resolution ∧
      ({ chBase with label := "Nuevo", updatedAt := 7 } : Channel).frameRate = old.frameRate ∧
      ({ chBase with label := "Nuevo", updatedAt := 7 } : Channel).errorMessage = old.errorMessage ∧
      ({ chBase with label := "Nuevo", updatedAt := 7 } : Channel).label =
        (if "Nuevo" = "" then old.label else "Nuevo") ∧
      ({ chBase with label := "Nuevo", updatedAt := 7 } : Channel).videoPath =
        (if "" = "" then old.videoPath else "") ∧
      ({ chBase with label := "Nuevo", updatedAt := 7 } : Channel).srtStreamName =
        (if "" = "" then old.srtStreamName else "") ∧
      ({ chBase with label := "Nuevo", updatedAt := 7 } : Channel).updatedAt = 7 ∧
      (Manager.update [chBase] 7 "id0" "Nuevo" "" "").state =
        [chBase].map (fun c =>
          if c.id = "id0" then { chBase with label := "Nuevo", updatedAt := 7 } else c) :=
  ⟨by decide, c9_update_frame_effect [chBase] 7 "id0" "Nuevo" "" ""
    { chBase with label := "Nuevo", updatedAt := 7 } (by decide)⟩

/-- C5: For every process-exit error event whose message matches a
transport-disconnect pattern, the event handler sets the status of the
channel to Inactive rather than Error, does not increment the error
counter of the channel, and does not schedule a restart attempt. -/
theorem c5_transport_disconnect_benign (autoRestart : Bool) (reg : Manager) (now : Nat)
    (ev : Event) (htype : ev.type = EventType.error)
    (hmsg : isSRTDisconnect ev.message = true) :
    appOnFFmpegEvent autoRestart reg now ev =
      ⟨Manager.setStatusD reg now ev.channelID .inactive,
        [⟨"channel:status", ev.channelID⟩], false⟩ ∧
    (appOnFFmpegEvent autoRestart reg now ev).restart = false ∧
    ((appOnFFmpegEvent autoRestart reg now ev).registry.map (fun c => c.stats.errorCount) =
      reg.map (fun c => c.stats.errorCount)) ∧
    (∀ c ∈ (appOnFFmpegEvent autoRestart reg now ev).registry,
      c.id = ev.channelID → c.status = Status.inactive) := by
  have h1 : appOnFFmpegEvent autoRestart reg now ev =
      ⟨Manager.setStatusD reg now ev.channelID .inactive,
        [⟨"channel:status", ev.channelID⟩], false⟩ := by
    simp [appOnFFmpegEvent, htype, hmsg]
  refine ⟨h1, by rw [h1], ?_, ?_⟩
  · rw [h1]
    show (Manager.setStatusD reg now ev.channelID .inactive).map (fun c => c.stats.errorCount) =
      reg.map (fun c => c.stats.errorCount)
    unfold Manager.setStatusD
    rw [List.map_map]
    apply List.map_congr_left
    intro c _
    by_cases hcid : c.id = ev.channelID <;> simp [hcid]
  · rw [h1]
    intro c hc hcid
    unfold Manager.setStatusD at hc
    obtain ⟨c0, _, rfl⟩ := List.mem_map.mp hc
    by_cases h0 : c0.id = ev.channelID
    · simp [h0]
    · rw [if_neg h0] at hcid
      exact absurd hcid h0

/-- The disconnect event used by the C5 witness. -/
def evDisc : Event :=
  ⟨EventType.error, "id0", "Error muxing a packet: exit status 0xfffffffb"⟩

theorem c5_transport_disconnect_benign_witness :
    evDisc.type = EventType.error ∧ isSRTDisconnect evDisc.message = true ∧
    appOnFFmpegEvent true [chBase] 5 evDisc =
      ⟨Manager.setStatusD [chBase] 5 evDisc.channelID .inactive,
        [⟨"channel:status", evDisc.channelID⟩], false⟩ ∧
    (appOnFFmpegEvent true [chBase] 5 evDisc).restart = false :=
  ⟨rfl, by decide, (c5_transport_disconnect_benign true [chBase] 5 evDisc rfl (by decide)).1,
    (c5_transport_disconnect_benign true [chBase] 5 evDisc rfl (by decide)).2.1⟩

/-- Looking a key up after the in-place replacement performed by
`stopMark` yields the replacement. -/
theorem lookup_map_replace (l : List (String × FFProcess)) :
    ∀ (k : String) (q : FFProcess), (List.lookup k l).isSome = true →
      List.lookup k (l.map (fun p => if p.1 = k then (p.1, q) else p)) = some q := by
  induction l with
  | nil => intro k q h; simp [List.lookup] at h
  | cons p l ih =>
    intro k q h
    obtain ⟨a, b⟩ := p
    by_cases hk : a = k
    · subst hk
      have hmap : (if (a, b).1 = a then ((a, b).1, q) else (a, b)) = (a, q) := by simp
      rw [List.map_cons, hmap]
      simp [List.lookup]
    · have hne : (k == a) = false := by
        rw [beq_eq_false_iff_ne]
        exact fun hh => hk hh.symm
      have hmap : (if (a, b).1 = k then ((a, b).1, q) else (a, b)) = (a, b) := by simp [hk]
      rw [List.map_cons, hmap]
      have h2 : (List.lookup k l).isSome = true := by
        simpa [List.lookup, hne] using h
      simp only [List.lookup, hne]
      exact ih k q h2

theorem lookup_stopMark (ff : FFState) (channelID : String) (proc : FFProcess)
    (h : List.lookup channelID ff = some proc) :
    List.lookup channelID (stopMark ff channelID).1 = some { proc with stopped := true } := by
  simp only [stopMark, h]
  exact lookup_map_replace ff channelID _ (by rw [h]; rfl)

/-- C4: For every transcode session on which Stop(id) has been invoked
before the monitor loop observes the process exit (so the
intentionally-stopped flag is set under the session lock), the monitor
emits no Error event for that exit and the channel never transitions to
Error as a consequence of that exit. -/
theorem c4_stop_flag_suppresses_monitor (ff : FFState) (channelID : String)
    (proc : FFProcess) (exitErr : Option String)
    (h : List.lookup channelID ff = some proc) :
    (monitorProcessStep (stopMark ff channelID).1 channelID exitErr).2 = [] ∧
    (monitorProcessStep (stopMark ff channelID).1 channelID exitErr).1 =
      (stopMark ff channelID).1 ∧
    ∀ (autoRestart : Bool) (reg : Manager) (now : Nat),
      applyFFEvents autoRestart reg now
        (monitorProcessStep (stopMark ff channelID).1 channelID exitErr).2 =
        ⟨reg, [], false⟩ := by
  have hl := lookup_stopMark ff channelID proc h
  have hm : monitorProcessStep (stopMark ff channelID).1 channelID exitErr =
      ((stopMark ff channelID).1, []) := by
    simp [monitorProcessStep, hl]
  exact ⟨by rw [hm], by rw [hm], fun autoRestart reg now => by rw [hm]; rfl⟩

/-- A live session fixture for the C4/C6 witnesses. -/
def procLive : FFProcess :=
  ⟨{ channelID := "c1", inputPath := "C:/videos/a.mp4" }, true, false⟩

theorem c4_stop_flag_suppresses_monitor_witness :
    List.lookup "c1" [("c1", procLive)] = some procLive ∧
    (monitorProcessStep (stopMark [("c1", procLive)] "c1").1 "c1"
      (some "exit status 1")).2 = [] ∧
    applyFFEvents true [chBase] 3
      (monitorProcessStep (stopMark [("c1", procLive)] "c1").1 "c1"
        (some "exit status 1")).2 = ⟨[chBase], [], false⟩ :=
  ⟨by decide,
    (c4_stop_flag_suppresses_monitor [("c1", procLive)] "c1" procLive
      (some "exit status 1") (by decide)).1,
    (c4_stop_flag_suppresses_monitor [("c1", procLive)] "c1" procLive
      (some "exit status 1") (by decide)).2.2 true [chBase] 3⟩

/-- C6: For every Supervisor Start call, if a live session already
exists for the channel id, or the configured input path does not exist
on disk, Start returns an error synchronously and no new session is
created (the session table is unchanged and no process is launched). -/
theorem c6_start_rejects_live_session_or_missing_input (fs : List String)
    (probe : String → String → Bool) (pid : Int) (ff : FFState)
    (config : StreamConfig) (enableFallback : Bool)
    (h : ((List.lookup config.channelID ff).any fun proc => proc.hasProcess) = true ∨
      fs.contains config.inputPath = false) :
    (∃ e, (startInternal fs probe pid ff config enableFallback).err = some e) ∧
    (startInternal fs probe pid ff config enableFallback).ff = ff ∧
    (startInternal fs probe pid ff config enableFallback).launched = [] ∧
    (startInternal fs probe pid ff config enableFallback).events = [] := by
  unfold startInternal
  rcases h with h | h
  · rw [if_pos h]
    exact ⟨⟨_, rfl⟩, rfl, rfl, rfl⟩
  · by_cases h1 : ((List.lookup config.channelID ff).any fun proc => proc.hasProcess) = true
    · rw [if_pos h1]
      exact ⟨⟨_, rfl⟩, rfl, rfl, rfl⟩
    · rw [if_neg h1, if_pos (by simpa using h)]
      exact ⟨⟨_, rfl⟩, rfl, rfl, rfl⟩

theorem c6_start_rejects_witness :
    (((List.lookup (procLive.config).channelID [("c1", procLive)]).any
        fun (proc : FFProcess) => proc.hasProcess) = true ∨
      List.contains [] (procLive.config).inputPath = false) ∧
    (∃ e, (startInternal [] (fun _ _ => true) 7 [("c1", procLive)]
      procLive.config true).err = some e) ∧
    (startInternal [] (fun _ _ => true) 7 [("c1", procLive)] procLive.config true).ff =
      [("c1", procLive)] ∧
    (startInternal [] (fun _ _ => true) 7 [("c1", procLive)] procLive.config true).launched =
      [] :=
  ⟨Or.inl (by decide),
    (c6_start_rejects_live_session_or_missing_input [] (fun _ _ => true) 7
      [("c1", procLive)] procLive.config true (Or.inl (by decide))).1,
    (c6_start_rejects_live_session_or_missing_input [] (fun _ _ => true) 7
      [("c1", procLive)] procLive.config true (Or.inl (by decide))).2.1,
    (c6_start_rejects_live_session_or_missing_input [] (fun _ _ => true) 7
      [("c1", procLive)] procLive.config true (Or.inl (by decide))).2.2.1⟩

/-- Recognizer for `EventWarning` events, used to count the warnings a
`Start` call emits. -/
def isWarningEvent (e : Event) : Bool :=
  match e.type with
  | .warning => true
  | _ => false

/-- C7: For every Start with fallback enabled that requests a hardware
encoder (h264_nvenc, h264_qsv, or h264_amf), if the bounded
single-frame probe of that encoder fails, then Start substitutes
libx264 as the video encoder, emits exactly one Warning event carrying
the substitution reason, and still proceeds to launch the process; if
the probe succeeds, the requested hardware encoder is used unchanged. -/
theorem c7_hardware_fallback (fs : List String) (probe : String → String → Bool)
    (pid : Int) (ff : FFState) (config : StreamConfig)
    (hsess : ((List.lookup config.channelID ff).any fun proc => proc.hasProcess) = false)
    (hfile : fs.contains config.inputPath = true)
    (hhw : isHardwareEncoder config.videoEncoder = true) :
    (probe config.inputPath config.videoEncoder = false →
      (startWithFallback fs probe pid ff config).err = none ∧
      (startWithFallback fs probe pid ff config).launched =
        [{ config with videoEncoder := "libx264" }] ∧
      ((startWithFallback fs probe pid ff config).events.filter isWarningEvent) =
        [⟨EventType.warning, config.channelID, fallbackWarnMsg config.videoEncoder⟩]) ∧
    (probe config.inputPath config.videoEncoder = true →
      (startWithFallback fs probe pid ff config).err = none ∧
      (startWithFallback fs probe pid ff config).launched = [config] ∧
      ((startWithFallback fs probe pid ff config).events.filter isWarningEvent) = []) := by
  have hmem : config.inputPath ∈ fs := by simpa using hfile
  constructor <;> intro hp <;>
    simp [startWithFallback, startInternal, hsess, hfile, hmem, hhw, hp,
      List.filter, isWarningEvent]

/-- A hardware-encoder stream configuration for the C7 witness. -/
def cfgHW : StreamConfig :=
  { channelID := "c2", inputPath := "C:/videos/b.mp4", videoEncoder := "h264_nvenc" }

theorem c7_hardware_fallback_witness :
    (((List.lookup cfgHW.channelID ([] : FFState)).any
        fun (proc : FFProcess) => proc.hasProcess) = false) ∧
    List.contains ["C:/videos/b.mp4"] cfgHW.inputPath = true ∧
    isHardwareEncoder cfgHW.videoEncoder = true ∧
    (startWithFallback ["C:/videos/b.mp4"] (fun _ _ => false) 7 [] cfgHW).launched =
      [{ cfgHW with videoEncoder := "libx264" }] ∧
    ((startWithFallback ["C:/videos/b.mp4"] (fun _ _ => false) 7 [] cfgHW).events.filter
      isWarningEvent) =
      [⟨EventType.warning, cfgHW.channelID, fallbackWarnMsg cfgHW.videoEncoder⟩] :=
  ⟨by decide, by decide, by decide,
    ((c7_hardware_fallback ["C:/videos/b.mp4"] (fun _ _ => false) 7 [] cfgHW
      (by decide) (by decide) (by decide)).1 rfl).2.1,
    ((c7_hardware_fallback ["C:/videos/b.mp4"] (fun _ _ => false) 7 [] cfgHW
      (by decide) (by decide) (by decide)).1 rfl).2.2⟩

/-- A concrete request environment shared by witnesses. -/
def env0 : Env :=
  { fs := ["C:/videos/intro.mp4"]
    probe := fun _ _ => true
    now := 1
    newID := "id-new"
    pid := 42
    serverIP := "10.0.0.5"
    videoFiles := fun _ => .ok [] }

/-- The app state with an empty registry and no sessions. -/
def appEmpty : AppState := ⟨[], [], {}⟩

/-- The app state holding the single registered channel `chBase`
(id "id0") with no live session. -/
def appOne : AppState := ⟨[chBase], [], {}⟩

/-- C3 counterexample: the claim says a stop request with an unknown
channelId yields success:true; on the code it yields success:false with
error code stop_error (`StopChannel` fails at the registry `Get`, and
`handleStopRequest` wraps that error). -/
theorem c3_counterexample_stop_unknown_channel :
    Manager.get appEmpty.registry "ghost" = .error .notFound ∧
    (handleStopRequest env0 appEmpty "clientA" ⟨"stop", "", "ghost", ""⟩).response.success =
      false ∧
    (handleStopRequest env0 appEmpty "clientA" ⟨"stop", "", "ghost", ""⟩).response.action =
      "stop_error" ∧
    (handleStopRequest env0 appEmpty "clientA" ⟨"stop", "", "ghost", ""⟩).a = appEmpty :=
  ⟨rfl, rfl, rfl, rfl⟩

/-- C3 (amended): a stop request whose channelId names an existing
channel answers success:true (`play_stopped`) even when no transcode
session is live — the supervisor-level stop of a missing session is an
idempotent no-op — while a channelId that names no channel yields the
error response `stop_error` with the registry unchanged. -/
theorem c3_stop_request_amended (env : Env) (a : AppState) (clientID : String) (msg : Message) :
    (∀ ch, Manager.get a.registry msg.channelID = .ok ch →
      (handleStopRequest env a clientID msg).response = successResponse "play_stopped") ∧
    (Manager.get a.registry msg.channelID = .error .notFound →
      (handleStopRequest env a clientID msg).response =
        errorResponse "stop_error" (mgrErrMsg .notFound) ∧
      (handleStopRequest env a clientID msg).a = a) := by
  constructor
  · intro ch hget
    simp [handleStopRequest, appStopChannel, hget]
  · intro hget
    simp [handleStopRequest, appStopChannel, hget]

theorem c3_stop_request_amended_witness :
    Manager.get appOne.registry "id0" = .ok chBase ∧
    (handleStopRequest env0 appOne "clientA" ⟨"stop", "", "id0", ""⟩).response =
      successResponse "play_stopped" :=
  ⟨by decide,
    (c3_stop_request_amended env0 appOne "clientA" ⟨"stop", "", "id0", ""⟩).1 chBase
      (by decide)⟩

/-- C8: evaluation at the failing input.  Two clients are connected and
client A issues a successful `play_video`; the handler answers
success:true to A, hands nothing to `Server.Broadcast` (no handler in
app.go ever calls it — state changes are emitted to the desktop GUI via
`runtime.EventsEmit` only), and the queue of client B stays empty, so no
channel-state notification reaches the other client. -/
theorem c8_play_video_no_broadcast :
    (processRequest env0 [⟨"clientA1", []⟩, ⟨"clientB2", []⟩] appEmpty "clientA1"
      ⟨"play_video", "", "", "C:/videos/intro.mp4"⟩).1.response.success = true ∧
    (processRequest env0 [⟨"clientA1", []⟩, ⟨"clientB2", []⟩] appEmpty "clientA1"
      ⟨"play_video", "", "", "C:/videos/intro.mp4"⟩).1.broadcasts = [] ∧
    (processRequest env0 [⟨"clientA1", []⟩, ⟨"clientB2", []⟩] appEmpty "clientA1"
      ⟨"play_video", "", "", "C:/videos/intro.mp4"⟩).2 =
      [⟨"clientA1", [successResponse "play_started"]⟩, ⟨"clientB2", []⟩] :=
  ⟨rfl, rfl, rfl⟩

/-- C2 counterexample: an Add call whose stream name ("dup") equals the
stream name of a different already-registered channel but whose label is
empty returns the empty-label error, not the duplicate-name error —
`Add` checks the label before the name (channel.go lines 102-104). -/
theorem c2_counterexample_empty_label_duplicate :
    (∃ ch ∈ [chBase], ch.srtStreamName = "dup") ∧
    (Manager.add [chBase] "id1" 1 "" "video.mp4" "dup").res = .error .emptyLabel ∧
    (Manager.add [chBase] "id1" 1 "" "video.mp4" "dup").res ≠ .error .duplicateName := by
  decide

/-- C2 (amended): a registry Add call with a *non-empty* label whose
effective stream name is already owned by a registered channel, and a
registry Update call naming an *existing* channel whose stream name is
owned by a different registered channel, both return the duplicate-name
error with the registry unchanged (names are assumed pairwise distinct,
the invariant Add/Update maintain); in particular two Adds with the
same streamName leave exactly one channel with that name. -/
theorem c2_duplicate_name_rejected (m : Manager) (newID : String) (now : Nat)
    (channelID label videoPath srtStreamName : String)
    (hnodup : (m.map (fun ch => ch.srtStreamName)).Nodup) :
    (label ≠ "" → (∃ ch ∈ m, ch.srtStreamName = effectiveStreamName label srtStreamName) →
      (Manager.add m newID now label videoPath srtStreamName).res = .error .duplicateName ∧
      (Manager.add m newID now label videoPath srtStreamName).state = m) ∧
    (∀ target, m.find? (fun ch => ch.id = channelID) = some target →
      (∃ other ∈ m, other.id ≠ channelID ∧ other.srtStreamName = srtStreamName) →
      (Manager.update m now channelID label videoPath srtStreamName).res =
        .error .duplicateName ∧
      (Manager.update m now channelID label videoPath srtStreamName).state = m) := by
  constructor
  · rintro hl ⟨ch, hch, hname⟩
    have hany : (m.any fun c =>
        c.srtStreamName = effectiveStreamName label srtStreamName) = true := by
      rw [List.any_eq_true]
      exact ⟨ch, hch, by simp [hname]⟩
    unfold Manager.add
    rw [if_neg hl, if_pos hany]
    exact ⟨rfl, rfl⟩
  · rintro target hfind ⟨other, hother, hoid, honame⟩
    have htid : target.id = channelID := by
      have := List.find?_some hfind
      simpa using this
    have htmem : target ∈ m := List.mem_of_find?_eq_some hfind
    have hne : srtStreamName ≠ target.srtStreamName := by
      intro heq
      have hot : other = target :=
        List.inj_on_of_nodup_map hnodup hother htmem (by rw [honame, heq])
      exact hoid (by rw [hot, htid])
    have hany : (m.any fun c =>
        c.id ≠ channelID ∧ c.srtStreamName = srtStreamName) = true := by
      rw [List.any_eq_true]
      exact ⟨other, hother, by simp [hoid, honame]⟩
    simp only [Manager.update, hfind]
    rw [if_pos ⟨hne, hany⟩]
    exact ⟨rfl, rfl⟩

/-- A second registered channel, distinct id and stream name. -/
def chOther : Channel :=
  { chBase with id := "id9", label := "Canal 2", srtStreamName := "other", srtPort := 9001 }

theorem c2_duplicate_name_rejected_witness :
    (([chBase, chOther].map (fun ch => ch.srtStreamName)).Nodup ∧
      ("Canal 3" : String) ≠ "" ∧ (∃ ch ∈ [chBase, chOther], ch.srtStreamName = "dup")) ∧
    ((Manager.add [chBase, chOther] "idA" 4 "Canal 3" "" "dup").res =
        .error .duplicateName ∧
      (Manager.add [chBase, chOther] "idA" 4 "Canal 3" "" "dup").state =
        [chBase, chOther]) ∧
    ((Manager.update [chBase, chOther] 5 "id0" "" "" "other").res =
        .error .duplicateName ∧
      (Manager.update [chBase, chOther] 5 "id0" "" "" "other").state =
        [chBase, chOther]) ∧
    ((Manager.add (Manager.add [] "a" 0 "C1" "" "N").state "b" 1 "C2" "" "N").res =
        .error .duplicateName ∧
      ((Manager.add (Manager.add [] "a" 0 "C1" "" "N").state "b" 1 "C2" "" "N").state.filter
        (fun ch => ch.srtStreamName = "N")).length = 1) :=
  ⟨⟨by decide, by decide, by decide⟩,
    (c2_duplicate_name_rejected [chBase, chOther] "idA" 4 "id0" "Canal 3" "" "dup"
      (by decide)).1 (by decide) (by decide),
    (c2_duplicate_name_rejected [chBase, chOther] "idA" 5 "id0" "" "" "other"
      (by decide)).2 chBase (by decide) (by decide),
    by decide⟩

/-- The arguments of one `Add` call in a call sequence. -/
structure AddReq where
  newID : String
  now : Nat
  label : String
  videoPath : String
  srtStreamName : String
deriving Repr, DecidableEq

/-- Run a sequence of `Add` calls, keeping the registry each call
leaves behind (failed calls leave it unchanged). -/
def addSeq (m : Manager) (reqs : List AddReq) : Manager :=
  reqs.foldl (fun acc r =>
    (Manager.add acc r.newID r.now r.label r.videoPath r.srtStreamName).state) m

/-- Go `Add` either appends the freshly built channel or fails leaving the
registry unchanged. -/
theorem add_cases (m : Manager) (newID : String) (now : Nat)
    (label videoPath srtStreamName : String) :
    Manager.add m newID now label videoPath srtStreamName =
      ⟨.ok (newChannel m newID now label videoPath srtStreamName),
        m ++ [newChannel m newID now label videoPath srtStreamName]⟩ ∨
    ∃ e, Manager.add m newID now label videoPath srtStreamName = ⟨.error e, m⟩ := by
  unfold Manager.add
  split
  · exact Or.inr ⟨_, rfl⟩
  · split
    · exact Or.inr ⟨_, rfl⟩
    · exact Or.inl rfl

/-- A successful `Add` returns exactly the freshly built channel and
appends it. -/
theorem add_res_ok_eq (m : Manager) (newID : String) (now : Nat)
    (label videoPath srtStreamName : String) (ch : Channel)
    (h : (Manager.add m newID now label videoPath srtStreamName).res = .ok ch) :
    ch = newChannel m newID now label videoPath srtStreamName ∧
    (Manager.add m newID now label videoPath srtStreamName).state = m ++ [ch] := by
  rcases add_cases m newID now label videoPath srtStreamName with hc | ⟨e, hc⟩
  · rw [hc] at h
    have hch := (Except.ok.inj h).symm
    subst hch
    rw [hc]
    exact ⟨rfl, rfl⟩
  · rw [hc] at h
    exact absurd h (by simp)

/-- The port bookkeeping invariant every Add-reachable registry
satisfies: ports are strictly increasing in insertion order, all at
least the base port, and the oldest registered channel holds 9000. -/
def portsOK (m : Manager) : Prop :=
  (m.map (fun ch => ch.srtPort)).Pairwise (· < ·) ∧
  (∀ ch ∈ m, 9000 ≤ ch.srtPort) ∧
  (∀ ch, m.head? = some ch → ch.srtPort = 9000)

theorem portsOK_nil : portsOK [] := by
  refine ⟨by simp, by simp, by intro ch h; simp at h⟩

theorem portsOK_add (m : Manager) (h : portsOK m) (newID : String) (now : Nat)
    (label videoPath srtStreamName : String) :
    portsOK (Manager.add m newID now label videoPath srtStreamName).state := by
  rcases add_cases m newID now label videoPath srtStreamName with hc | ⟨e, hc⟩
  · rw [hc]
    obtain ⟨hpw, hbd, hhd⟩ := h
    obtain ⟨hge, hlt, _⟩ := getNextSRTPort_spec m
    refine ⟨?_, ?_, ?_⟩
    · rw [List.map_append, List.pairwise_append]
      refine ⟨hpw, by simp, ?_⟩
      intro x hx y hy
      obtain ⟨c, hc2, rfl⟩ := List.mem_map.mp hx
      simp only [List.map_cons, List.map_nil, List.mem_singleton] at hy
      rw [hy]
      exact hlt c hc2
    · intro c hcm
      rcases List.mem_append.mp hcm with h1 | h1
      · exact hbd c h1
      · rw [List.mem_singleton] at h1
        rw [h1]
        exact hge
    · intro c hhead
      cases m with
      | nil =>
        simp only [List.nil_append, List.head?_cons, Option.some.injEq] at hhead
        rw [← hhead]
        show Manager.getNextSRTPort [] = 9000
        decide
      | cons a m2 =>
        have : (a :: m2 ++ [newChannel (a :: m2) newID now label videoPath srtStreamName]).head? =
            some a := rfl
        rw [this] at hhead
        exact hhd c hhead
  · rw [hc]
    exact h

theorem portsOK_addSeq (m : Manager) (h : portsOK m) (reqs : List AddReq) :
    portsOK (addSeq m reqs) := by
  induction reqs generalizing m with
  | nil => exact h
  | cons r reqs ih =>
    exact ih _ (portsOK_add m h r.newID r.now r.label r.videoPath r.srtStreamName)

/-- C1: For every sequence of registry Add calls, the set of SRT ports
assigned to the channels is pairwise distinct and monotonically
non-decreasing in assignment order among the channels still registered;
the first channel added to an empty registry is assigned the base port
9000, and each subsequent channel is assigned one greater than the
maximum port currently assigned. -/
theorem c1_port_allocation (reqs : List AddReq) (r : AddReq) (ch : Channel) :
    ((addSeq [] reqs).map (fun c => c.srtPort)).Pairwise (· ≠ ·) ∧
    ((addSeq [] reqs).map (fun c => c.srtPort)).Pairwise (· < ·) ∧
    (∀ c, (addSeq [] reqs).head? = some c → c.srtPort = 9000) ∧
    ((Manager.add (addSeq [] reqs) r.newID r.now r.label r.videoPath r.srtStreamName).res =
        .ok ch →
      (addSeq [] reqs = [] → ch.srtPort = 9000) ∧
      (addSeq [] reqs ≠ [] →
        (∀ c ∈ addSeq [] reqs, c.srtPort < ch.srtPort) ∧
        ∃ c ∈ addSeq [] reqs, ch.srtPort = c.srtPort + 1)) := by
  obtain ⟨hpw, hbd, hhd⟩ := portsOK_addSeq [] portsOK_nil reqs
  refine ⟨hpw.imp (fun hlt => ne_of_lt hlt), hpw, hhd, ?_⟩
  intro hok
  obtain ⟨hch, -⟩ :=
    add_res_ok_eq (addSeq [] reqs) r.newID r.now r.label r.videoPath r.srtStreamName ch hok
  have hport : ch.srtPort = Manager.getNextSRTPort (addSeq [] reqs) := by rw [hch]; rfl
  obtain ⟨hge, hlt, hp3⟩ := getNextSRTPort_spec (addSeq [] reqs)
  constructor
  · intro hnil
    rw [hport, hnil]
    decide
  · intro hnonnil
    refine ⟨fun c hc => hport ▸ hlt c hc, ?_⟩
    rcases hp3 with h9 | ⟨c, hc, heq⟩
    · obtain ⟨c0, hc0⟩ := List.exists_mem_of_ne_nil _ hnonnil
      have h1 := hlt c0 hc0
      have h2 := hbd c0 hc0
      rw [h9] at h1
      omega
    · exact ⟨c, hc, by rw [hport, heq]⟩

/-- The C1 witness call sequence: two successful Adds, then a third. -/
def reqs0 : List AddReq := [⟨"a", 0, "C1", "", "N1"⟩, ⟨"b", 1, "C2", "", "N2"⟩]

/-- The channel the third Add of the C1 witness creates: port 9002, one
above the maximum currently assigned (9001). -/
def ch9002 : Channel :=
  { id := "c"
    label := "C3"
    videoPath := ""
    srtStreamName := "N3"
    srtPort := 9002
    resolution := "1920x1080"
    frameRate := 30
    status := .inactive
    currentFile := ""
    createdAt := 2
    updatedAt := 2
    errorMessage := ""
    stats := {} }

theorem c1_port_allocation_witness :
    ((addSeq [] reqs0).map (fun c => c.srtPort)).Pairwise (· < ·) ∧
    (Manager.add (addSeq [] reqs0) "c" 2 "C3" "" "N3").res = .ok ch9002 ∧
    addSeq [] reqs0 ≠ [] ∧
    (∀ c ∈ addSeq [] reqs0, c.srtPort < ch9002.srtPort) ∧
    (∃ c ∈ addSeq [] reqs0, ch9002.srtPort = c.srtPort + 1) := by
  have h := c1_port_allocation reqs0 ⟨"c", 2, "C3", "", "N3"⟩ ch9002
  have hok : (Manager.add (addSeq [] reqs0) "c" 2 "C3" "" "N3").res = .ok ch9002 := by decide
  exact ⟨h.2.1, hok, by decide, ((h.2.2.2 hok).2 (by decide)).1, ((h.2.2.2 hok).2 (by decide)).2⟩
